import Mathlib

/-!
Verification of the auto-registering IPython magics notebook.

The notebook defines a small pipeline:

* `get_public_functions` executes a cell string and keeps the function-typed
  bindings;
* `MagicType` is a three-valued enum of magic kinds;
* `detect_magic_type` classifies a function by the shape of its signature
  (`inspect.getfullargspec`);
* `register_magic` looks the classification tag up in the fixed `registrars`
  dict and calls the corresponding IPython registrar, converting a `KeyError`
  on the lookup into a `RuntimeError`;
* the cell magic `auto_register_magics` composes the three steps.

The embedding below models the Python fragments directly.  A Python function
object is represented by the part of it the notebook inspects: its
`getfullargspec`-visible signature (positional argument names and the tuple of
default values).  Default values that occur in the notebook are plain
constants, so defaults are drawn from a type of Python constants; the only
operation the code performs on a default is the identity test `is None`.
The IPython registrar functions are external to the repository; they are
modelled as opaque registration actions recording which registrar was invoked
on which function.
-/

/-- A Python constant, as may appear as a default value of an argument.  The
code only ever tests a default with `is None`. -/
inductive PyConst where
  | pynone
  | pybool (b : Bool)
  | pyint (n : Int)
  | pystr (s : String)
  deriving DecidableEq, Repr

/-- The `inspect.getfullargspec`-visible signature of a Python function: the
list of declared positional argument names and the tuple of default values
(`None` in Python when the function declares no defaults, hence `Option`;
when present, the defaults align with the trailing arguments). -/
structure FuncSig where
  args : List String
  defaults : Option (List PyConst)
  deriving DecidableEq, Repr

/-- A Python value bound by executing a cell: either a plain constant or a
function object, the latter represented by its signature. -/
inductive PyValue where
  | const (c : PyConst)
  | vfunc (sig : FuncSig)
  deriving DecidableEq, Repr

/-- Python's `inspect.isfunction`. -/
def isfunction : PyValue → Bool
  | PyValue.vfunc _ => true
  | PyValue.const _ => false

/-- A binding statement of a cell: an ordinary assignment `name = value` or a
function definition `def name(...)`. -/
inductive Stmt where
  | assign (name : String) (value : PyValue)
  | funcdef (name : String) (sig : FuncSig)
  deriving DecidableEq, Repr

/-- A cell string handed to `exec`: either it parses into a sequence of
binding statements, or it is malformed Python source (on which `exec` raises
`SyntaxError`). -/
inductive CellSource where
  | wellFormed (stmts : List Stmt)
  | malformed
  deriving DecidableEq, Repr

/-- The Python exceptions the modelled code can raise: `SyntaxError` from
`exec` on malformed source, `KeyError` from a failed dict lookup, and
`RuntimeError` (carrying its message and, via `raise ... from`, its cause). -/
inductive PyError where
  | syntaxError
  | keyError
  | runtimeError (msg : String) (cause : PyError)
  deriving DecidableEq, Repr

/-- Assignment into a Python dict: replace the value of an existing key in
place, otherwise append the new key at the end (Python dicts preserve
insertion order). -/
def dictInsert {α β : Type} [DecidableEq α] : List (α × β) → α → β → List (α × β)
  | [], key, v => [(key, v)]
  | (k, w) :: rest, key, v =>
      if key = k then (key, v) :: rest else (k, w) :: dictInsert rest key v

/-- Lookup in a Python dict (`d[key]` succeeding iff the key is present). -/
def dictLookup {α β : Type} [DecidableEq α] : List (α × β) → α → Option β
  | [], _ => Option.none
  | (k, v) :: rest, key => if key = k then Option.some v else dictLookup rest key

/-- Sequential execution of the statements of a cell against a locals dict. -/
def execStmts : List Stmt → List (String × PyValue) → List (String × PyValue)
  | [], content => content
  | Stmt.assign name v :: rest, content =>
      execStmts rest (dictInsert content name v)
  | Stmt.funcdef name sig :: rest, content =>
      execStmts rest (dictInsert content name (PyValue.vfunc sig))

/-- Python's `exec(cell, None, content)` with `content` initially the empty
dict: malformed source raises `SyntaxError`; well-formed source executes its
statements in order, each binding a name in `content`. -/
def execCell : CellSource → Except PyError (List (String × PyValue))
  | CellSource.malformed => Except.error PyError.syntaxError
  | CellSource.wellFormed stmts => Except.ok (execStmts stmts [])

/-- The notebook's `get_public_functions`: execute the cell and keep exactly
the bindings whose value satisfies `inspect.isfunction`, i.e. the `vfunc`
bindings, each paired with its function (represented by its signature).
Errors raised by `exec` propagate: there is no exception handling here. -/
def get_public_functions (cell : CellSource) : Except PyError (List (String × FuncSig)) := do
  let content ← execCell cell
  Except.ok (content.filterMap fun nv =>
    match nv.2 with
    | PyValue.vfunc sig => Option.some (nv.1, sig)
    | PyValue.const _ => Option.none)

/-- The notebook's `MagicType` enum. -/
inductive MagicType where
  | LINE
  | CELL
  | LINE_CELL
  deriving DecidableEq, Repr

/-- The notebook's `detect_magic_type`, a direct transcription of its
conditional dispatch on `len(spec.args)`, `spec.defaults is None`,
`len(spec.defaults)` and `spec.defaults[-1] is None`. -/
def detect_magic_type (fn : FuncSig) : Option MagicType :=
  let spec := fn
  if spec.args.length = 1 then
    match spec.defaults with
    | Option.none => Option.some MagicType.LINE
    | Option.some _ => Option.none
  else if spec.args.length = 2 then
    match spec.defaults with
    | Option.none => Option.some MagicType.CELL
    | Option.some ds =>
        if ds.length = 1 ∧ ds.getLast? = Option.some PyConst.pynone then
          Option.some MagicType.LINE_CELL
        else Option.none
  else Option.none

/-- The effect of calling one of the external IPython registrars on a
function: which registration was performed, and on which function. -/
inductive RegisterAction where
  | line (fn : FuncSig)
  | cell (fn : FuncSig)
  | line_cell (fn : FuncSig)
  deriving DecidableEq, Repr

/-- IPython's `register_line_magic`, modelled as the action it performs. -/
def register_line_magic (fn : FuncSig) : RegisterAction := RegisterAction.line fn

/-- IPython's `register_cell_magic`, modelled as the action it performs. -/
def register_cell_magic (fn : FuncSig) : RegisterAction := RegisterAction.cell fn

/-- IPython's `register_line_cell_magic`, modelled as the action it
performs. -/
def register_line_cell_magic (fn : FuncSig) : RegisterAction := RegisterAction.line_cell fn

/-- A runtime value passed as the `magic_type` argument of `register_magic`.
Python does not enforce the `MagicType` annotation, and the `except KeyError`
branch of `register_magic` exists precisely for values that are not keys of
the `registrars` dict, so the tag is modelled as either a member of the enum
or some other runtime value (carrying its display string). -/
inductive PyTag where
  | magic (t : MagicType)
  | pyNone
  | other (s : String)
  deriving DecidableEq, Repr

/-- The display string of a tag, as interpolated into the `RuntimeError`
message (Python's `str` of an enum member is `ClassName.MEMBER`). -/
def PyTag.str : PyTag → String
  | PyTag.magic MagicType.LINE => "MagicType.LINE"
  | PyTag.magic MagicType.CELL => "MagicType.CELL"
  | PyTag.magic MagicType.LINE_CELL => "MagicType.LINE_CELL"
  | PyTag.pyNone => "None"
  | PyTag.other s => s

/-- The notebook's `registrars` dict, keyed by the three `MagicType`
members. -/
def registrars : List (PyTag × (FuncSig → RegisterAction)) :=
  [(PyTag.magic MagicType.LINE, register_line_magic),
   (PyTag.magic MagicType.CELL, register_cell_magic),
   (PyTag.magic MagicType.LINE_CELL, register_line_cell_magic)]

/-- The notebook's `register_magic`: look the tag up in `registrars` and call
the registrar found; a `KeyError` (absent key) is re-raised as a
`RuntimeError` with the message `Unknown magic type {magic_type}` and the
`KeyError` as its cause. -/
def register_magic (fn : FuncSig) (magic_type : PyTag) : Except PyError RegisterAction :=
  match dictLookup registrars magic_type with
  | Option.some registrar => Except.ok (registrar fn)
  | Option.none =>
      Except.error (PyError.runtimeError ("Unknown magic type " ++ magic_type.str)
        PyError.keyError)

/-- The loop body of `auto_register_magics`: for each extracted function, run
`detect_magic_type`; `continue` past functions whose classification is falsy
(`None`), and call `register_magic` on the rest, threading any raised
exception outward.  The returned list is the sequence of registration actions
performed, in order. -/
def registerAll : List (String × FuncSig) → Except PyError (List RegisterAction)
  | [] => Except.ok []
  | (_, fn) :: rest =>
      match detect_magic_type fn with
      | Option.none => registerAll rest
      | Option.some magic_type => do
          let act ← register_magic fn (PyTag.magic magic_type)
          let acts ← registerAll rest
          Except.ok (act :: acts)

/-- The notebook's `auto_register_magics` cell magic: extract the public
functions of the cell, classify each, and register those with a non-`None`
classification.  It holds no state of its own: the result is a pure function
of the cell argument. -/
def auto_register_magics (line : String) (cell : CellSource) :
    Except PyError (List RegisterAction) := do
  let public_functions ← get_public_functions cell
  registerAll public_functions

/-- The signature shapes the spec lists as classifying to a magic type: one
argument without defaults, two arguments without defaults, or two arguments
with exactly one default whose value is `None`. -/
def magicSignatureShape (sig : FuncSig) : Prop :=
  (sig.args.length = 1 ∧ sig.defaults = Option.none) ∨
  (sig.args.length = 2 ∧ sig.defaults = Option.none) ∨
  (sig.args.length = 2 ∧ ∃ ds, sig.defaults = Option.some ds ∧
    ds.length = 1 ∧ ds.getLast? = Option.some PyConst.pynone)

/-- The loop of the cell magic never fails and produces exactly one
registration action per extracted function whose classification is a magic
type, each performed by the registrar corresponding to that type. -/
theorem registerAll_eq (fns : List (String × FuncSig)) :
    registerAll fns = Except.ok (fns.filterMap fun nf =>
      Option.map (fun t =>
        (match t with
         | MagicType.LINE => register_line_magic
         | MagicType.CELL => register_cell_magic
         | MagicType.LINE_CELL => register_line_cell_magic) nf.2)
        (detect_magic_type nf.2)) := by
  induction fns with
  | nil => rfl
  | cons hd tl ih =>
    obtain ⟨name, fn⟩ := hd
    cases h : detect_magic_type fn with
    | none => simp [registerAll, h, ih]
    | some t =>
      cases t <;>
        simp [registerAll, h, ih, register_magic, dictLookup, registrars] <;>
        rfl

/-- Claim C6: a function taking exactly one declared argument with no default
value classifies as `MagicType.LINE`. -/
theorem detect_magic_type_one_arg_line (sig : FuncSig)
    (h1 : sig.args.length = 1) (hd : sig.defaults = Option.none) :
    detect_magic_type sig = Option.some MagicType.LINE := by
  simp [detect_magic_type, h1, hd]

/-- Witness for C6 at the one-argument signature `(line)`. -/
theorem detect_magic_type_one_arg_line_witness :
    detect_magic_type ⟨["line"], Option.none⟩ = Option.some MagicType.LINE :=
  detect_magic_type_one_arg_line ⟨["line"], Option.none⟩ rfl rfl

/-- Claim C7: a function taking exactly two declared arguments with no default
values classifies as `MagicType.CELL`. -/
theorem detect_magic_type_two_args_cell (sig : FuncSig)
    (h2 : sig.args.length = 2) (hd : sig.defaults = Option.none) :
    detect_magic_type sig = Option.some MagicType.CELL := by
  simp [detect_magic_type, h2, hd]

/-- Witness for C7 at the two-argument signature `(line, cell)`. -/
theorem detect_magic_type_two_args_cell_witness :
    detect_magic_type ⟨["line", "cell"], Option.none⟩ = Option.some MagicType.CELL :=
  detect_magic_type_two_args_cell ⟨["line", "cell"], Option.none⟩ rfl rfl

/-- Claim C8: a function taking zero declared arguments classifies as the
undetermined result `None`. -/
theorem detect_magic_type_zero_args_none (sig : FuncSig)
    (h0 : sig.args.length = 0) :
    detect_magic_type sig = Option.none := by
  simp [detect_magic_type, h0]

/-- Witness for C8 at the zero-argument signature `()`. -/
theorem detect_magic_type_zero_args_none_witness :
    detect_magic_type ⟨[], Option.none⟩ = Option.none :=
  detect_magic_type_zero_args_none ⟨[], Option.none⟩ rfl

/-- Claim C2 counterexample: the function `(line=1, cell=None)` takes exactly
two declared arguments and its second argument defaults to `None` (the last
entry of its defaults tuple is `None`), yet `detect_magic_type` classifies it
as `None`, not `MagicType.LINE_CELL`, because its defaults tuple has length
two. -/
theorem detect_magic_type_second_default_counterexample :
    (FuncSig.mk ["line", "cell"]
      (Option.some [PyConst.pyint 1, PyConst.pynone])).args.length = 2 ∧
    ([PyConst.pyint 1, PyConst.pynone].getLast? = Option.some PyConst.pynone) ∧
    detect_magic_type (FuncSig.mk ["line", "cell"]
      (Option.some [PyConst.pyint 1, PyConst.pynone])) ≠
      Option.some MagicType.LINE_CELL := by
  decide

/-- Claim C2 (amended): a function taking exactly two declared arguments whose
defaults tuple is exactly `(None,)` — i.e. only the second argument carries a
default, and that default is `None` — classifies as `MagicType.LINE_CELL`. -/
theorem detect_magic_type_line_cell (sig : FuncSig)
    (h2 : sig.args.length = 2)
    (hd : sig.defaults = Option.some [PyConst.pynone]) :
    detect_magic_type sig = Option.some MagicType.LINE_CELL := by
  simp [detect_magic_type, h2, hd]

/-- Witness for amended C2 at the signature `(line, cell=None)`. -/
theorem detect_magic_type_line_cell_witness :
    detect_magic_type ⟨["line", "cell"], Option.some [PyConst.pynone]⟩ =
      Option.some MagicType.LINE_CELL :=
  detect_magic_type_line_cell ⟨["line", "cell"], Option.some [PyConst.pynone]⟩ rfl rfl

/-- Claim C9: `detect_magic_type` returns `None` exactly on the signatures
outside the three listed shapes; in particular a one-argument function whose
argument carries a default classifies as `None` rather than `LINE`, and a
two-argument function whose defaults tuple has length two with second entry
`None` classifies as `None` rather than `LINE_CELL`. -/
theorem detect_magic_type_none_off_shape :
    (∀ sig : FuncSig, detect_magic_type sig = Option.none ↔ ¬ magicSignatureShape sig) ∧
    (∀ (a : String) (ds : List PyConst),
      detect_magic_type ⟨[a], Option.some ds⟩ = Option.none) ∧
    (∀ (a b : String) (d : PyConst),
      detect_magic_type ⟨[a, b], Option.some [d, PyConst.pynone]⟩ = Option.none) := by
  refine ⟨?_, ?_, ?_⟩
  · rintro ⟨args, defaults⟩
    rcases args with _ | ⟨a, args⟩
    · simp [detect_magic_type, magicSignatureShape]
    rcases args with _ | ⟨b, args⟩
    · cases defaults with
      | none => simp [detect_magic_type, magicSignatureShape]
      | some ds => simp [detect_magic_type, magicSignatureShape]
    rcases args with _ | ⟨c, args⟩
    · cases defaults with
      | none => simp [detect_magic_type, magicSignatureShape]
      | some ds =>
        by_cases hlen : ds.length = 1
        · by_cases hlast : ds.getLast? = Option.some PyConst.pynone
          · simp [detect_magic_type, magicSignatureShape, hlen, hlast]
          · simp [detect_magic_type, magicSignatureShape, hlen, hlast]
        · simp [detect_magic_type, magicSignatureShape, hlen]
    · simp [detect_magic_type, magicSignatureShape]
  · intro a ds
    simp [detect_magic_type]
  · intro a b d
    simp [detect_magic_type]

/-- Claim C4: `register_magic` raises a `RuntimeError` wrapping the underlying
`KeyError` exactly when the tag it is given is not a key of the fixed
three-entry `registrars` dict, and for each of the three known tags it
instead calls the corresponding registrar. -/
theorem register_magic_error_iff (fn : FuncSig) (t : PyTag) :
    ((∃ msg, register_magic fn t =
        Except.error (PyError.runtimeError msg PyError.keyError)) ↔
      dictLookup registrars t = Option.none) ∧
    (∀ mt : MagicType, register_magic fn (PyTag.magic mt) =
      Except.ok ((match mt with
        | MagicType.LINE => register_line_magic
        | MagicType.CELL => register_cell_magic
        | MagicType.LINE_CELL => register_line_cell_magic) fn)) := by
  constructor
  · cases t with
    | magic mt => cases mt <;> simp [register_magic, dictLookup, registrars]
    | pyNone => simp [register_magic, dictLookup, registrars]
    | other s => simp [register_magic, dictLookup, registrars]
  · intro mt
    cases mt <;> rfl

/-- Claim C5: a cell binding one non-callable value and defining one function
yields exactly the function under its name; the non-callable binding is
absent. -/
theorem get_public_functions_single_function (n₁ n₂ : String) (v : PyConst)
    (sig : FuncSig) (hne : n₁ ≠ n₂) :
    get_public_functions (CellSource.wellFormed
      [Stmt.assign n₁ (PyValue.const v), Stmt.funcdef n₂ sig]) =
      Except.ok [(n₂, sig)] := by
  have hne' : ¬(n₂ = n₁) := fun h => hne h.symm
  simp [get_public_functions, execCell, execStmts, dictInsert, hne']
  rfl

/-- Witness for C5 at the notebook's own test cell `foo = None; def bar(): ...`. -/
theorem get_public_functions_single_function_witness :
    get_public_functions (CellSource.wellFormed
      [Stmt.assign "foo" (PyValue.const PyConst.pynone),
       Stmt.funcdef "bar" ⟨[], Option.none⟩]) =
      Except.ok [("bar", (⟨[], Option.none⟩ : FuncSig))] :=
  get_public_functions_single_function "foo" "bar" PyConst.pynone ⟨[], Option.none⟩
    (by decide)

/-- Claim C3 counterexample: on malformed cell code `get_public_functions`
does signal an error rather than ignoring it — the `SyntaxError` raised by
`exec` propagates, and no mapping is returned. -/
theorem get_public_functions_malformed_raises :
    get_public_functions CellSource.malformed = Except.error PyError.syntaxError := rfl

/-- Claim C3 (amended): non-function bindings are implicitly ignored by
filtering — for every well-formed cell no error is signalled and the returned
mapping holds exactly the bindings whose value is a function, so non-function
bindings never appear — but malformed cell code is not ignored: the
`SyntaxError` raised by `exec` propagates out of `get_public_functions`. -/
theorem get_public_functions_filtering :
    (∀ stmts : List Stmt, ∃ fns,
      get_public_functions (CellSource.wellFormed stmts) = Except.ok fns ∧
      ∀ nv : String × FuncSig,
        nv ∈ fns ↔ (nv.1, PyValue.vfunc nv.2) ∈ execStmts stmts []) ∧
    get_public_functions CellSource.malformed = Except.error PyError.syntaxError := by
  constructor
  · intro stmts
    refine ⟨_, rfl, ?_⟩
    rintro ⟨name, sig⟩
    rw [List.mem_filterMap]
    constructor
    · rintro ⟨⟨n, v⟩, hmem, hf⟩
      cases v with
      | const c => simp at hf
      | vfunc s =>
        simp only [Option.some.injEq, Prod.mk.injEq] at hf
        obtain ⟨h1, h2⟩ := hf
        subst h1
        subst h2
        exact hmem
    · intro hmem
      exact ⟨(name, PyValue.vfunc sig), hmem, rfl⟩
  · rfl

/-- Claim C1: for every invocation, the cell magic is exactly the sequential
3-step pipeline — extract the function bindings of the cell, classify each
signature with `detect_magic_type`, and register with the registrar
corresponding to its classification exactly those functions classified as one
of the three magic types.  The result is a pure function of the invocation's
arguments, so nothing is carried over between invocations. -/
theorem auto_register_magics_pipeline (line : String) (cell : CellSource) :
    auto_register_magics line cell =
      Except.map (fun fns => fns.filterMap fun nf =>
        Option.map (fun t =>
          (match t with
           | MagicType.LINE => register_line_magic
           | MagicType.CELL => register_cell_magic
           | MagicType.LINE_CELL => register_line_cell_magic) nf.2)
          (detect_magic_type nf.2))
        (get_public_functions cell) := by
  cases cell with
  | malformed => rfl
  | wellFormed stmts =>
    have h := registerAll_eq ((execStmts stmts []).filterMap fun nv =>
      match nv.2 with
      | PyValue.vfunc sig => Option.some (nv.1, sig)
      | PyValue.const _ => Option.none)
    simpa [auto_register_magics, get_public_functions, execCell, Except.map] using h

/-- Claim C10: within the cell magic the `RuntimeError` branch of
`register_magic` is unreachable — every tag produced by `detect_magic_type`
other than `None` is a key of `registrars`, so `register_magic` succeeds on
it with the corresponding registrar, and `auto_register_magics` never raises
the unknown-magic-type `RuntimeError`. -/
theorem auto_register_magics_runtime_error_unreachable :
    (∀ (fn : FuncSig) (t : MagicType), detect_magic_type fn = Option.some t →
      register_magic fn (PyTag.magic t) =
        Except.ok ((match t with
          | MagicType.LINE => register_line_magic
          | MagicType.CELL => register_cell_magic
          | MagicType.LINE_CELL => register_line_cell_magic) fn)) ∧
    (∀ (line : String) (cell : CellSource) (msg : String) (cause : PyError),
      auto_register_magics line cell ≠ Except.error (PyError.runtimeError msg cause)) := by
  constructor
  · intro fn t _
    cases t <;> rfl
  · intro line cell msg cause
    cases cell with
    | malformed =>
      have h : auto_register_magics line CellSource.malformed =
          Except.error PyError.syntaxError := rfl
      simp [h]
    | wellFormed stmts =>
      have h : auto_register_magics line (CellSource.wellFormed stmts) =
          Except.ok (((execStmts stmts []).filterMap fun nv : String × PyValue =>
            match nv.2 with
            | PyValue.vfunc sig => Option.some (nv.1, sig)
            | PyValue.const _ => Option.none).filterMap fun nf =>
              Option.map (fun t =>
                (match t with
                 | MagicType.LINE => register_line_magic
                 | MagicType.CELL => register_cell_magic
                 | MagicType.LINE_CELL => register_line_cell_magic) nf.2)
                (detect_magic_type nf.2)) :=
        registerAll_eq ((execStmts stmts []).filterMap fun nv : String × PyValue =>
          match nv.2 with
          | PyValue.vfunc sig => Option.some (nv.1, sig)
          | PyValue.const _ => Option.none)
      simp [h]

/-- Witness for C10 at the one-argument signature `(line)`, classified as
`MagicType.LINE` and registered by the line-magic registrar. -/
theorem auto_register_magics_runtime_error_unreachable_witness :
    register_magic ⟨["line"], Option.none⟩ (PyTag.magic MagicType.LINE) =
      Except.ok (register_line_magic ⟨["line"], Option.none⟩) :=
  auto_register_magics_runtime_error_unreachable.1 ⟨["line"], Option.none⟩
    MagicType.LINE (by decide)
